import Mathlib

/-!
Verification of the GraphQL client engine in `graphql.go` (package `graphql`).

The file shallowly embeds the two operation flows of the client:

* `doForWbyDc` — the generic (untyped-result) flow used by the public
  `Client.Query`: it POSTs the raw query document, parses the response body
  into an open string-keyed map, and classifies the `errors` / `data` keys.
* `do` (here `doTyped`, since `do` is reserved in Lean) — the typed flow used
  by the public `Client.Mutate`: it serializes a `{query, variables}` request
  envelope as JSON (with `variables` under `omitempty`), POSTs it, decodes the
  response into a fixed envelope struct, hands `data` to the structural
  decoder, and finally reports the error list.

External collaborators (the query builders in the internal package, the HTTP
transport, the stdlib JSON grammar parser and the structural decoder
`jsonutil.UnmarshalGraphQL`) are not part of the given source; the flows are
parameterized over them.  Go's `encoding/json` unmarshaling into the concrete
target types appearing in `graphql.go` is embedded explicitly below.
-/

/-- A JSON value, as produced by Go's `encoding/json` when decoding into
`interface{}`: null, booleans, numbers, strings, arrays and objects
(objects as association lists with the keys unique). -/
inductive Json where
  | null : Json
  | bool (b : Bool) : Json
  | num (n : Int) : Json
  | str (s : String) : Json
  | arr (elems : List Json) : Json
  | obj (fields : List (String × Json)) : Json

/-- Key lookup in a decoded JSON object (a Go `map[string]interface{}` index
expression): exact string match, first occurrence. -/
def lookupExact : List (String × Json) → String → Option Json
  | [], _ => none
  | (k, v) :: rest, key => if k = key then some v else lookupExact rest key

/-- ASCII-lowercased character sequence of a string, for case-insensitive
key matching. -/
def lowerChars (s : String) : List Char :=
  s.data.map Char.toLower

/-- Field lookup as Go's `encoding/json` performs it when filling a struct
field: an exact match is preferred, otherwise a case-insensitive match. -/
def lookupCI (fields : List (String × Json)) (key : String) : Option Json :=
  match lookupExact fields key with
  | some v => some v
  | none =>
    match fields.find? (fun kv => lowerChars kv.1 = lowerChars key) with
    | some kv => some kv.2
    | none => none

/-- The keys of a JSON object value (empty for non-objects). -/
def objKeys : Json → List String
  | .obj fields => fields.map Prod.fst
  | _ => []

/-- Minimal JSON string escaping (backslash, quote, newline, tab, CR), the
cases exercised here; Go's encoder escapes a few more characters
(other control characters and HTML-significant ones) the same way. -/
def escapeString (s : String) : String :=
  s.data.foldl (fun acc c =>
    acc ++ (if c = '\\' then "\\\\"
            else if c = '"' then "\\\""
            else if c = '\n' then "\\n"
            else if c = '\t' then "\\t"
            else if c = '\r' then "\\r"
            else String.singleton c)) ""

mutual

/-- Compact JSON serialization, as `encoding/json` marshals a value. -/
def Json.render : Json → String
  | .null => "null"
  | .bool b => if b then "true" else "false"
  | .num n => toString n
  | .str s => "\"" ++ escapeString s ++ "\""
  | .arr elems => "[" ++ renderElems elems ++ "]"
  | .obj fields => "\x7b" ++ renderFields fields ++ "\x7d"

/-- Comma-separated rendering of array elements. -/
def renderElems : List Json → String
  | [] => ""
  | [x] => Json.render x
  | x :: rest => Json.render x ++ "," ++ renderElems rest

/-- Comma-separated rendering of object members. -/
def renderFields : List (String × Json) → String
  | [] => ""
  | [(k, v)] => "\"" ++ escapeString k ++ "\":" ++ Json.render v
  | (k, v) :: rest =>
      "\"" ++ escapeString k ++ "\":" ++ Json.render v ++ "," ++ renderFields rest

end

/-- One element of a `GraphQLError`'s `Locations` slice (`{Line, Column int}`
in `graphql.go`). -/
structure Location where
  line : Int
  column : Int
deriving DecidableEq, Repr

/-- One element of the `errors` slice type of `graphql.go`:
`{Message string; Locations []struct{Line, Column int}}`. -/
structure GraphQLError where
  message : String
  locations : List Location
deriving DecidableEq, Repr

/-- The `errors` type of `graphql.go`: the slice decoded from the response's
`"errors"` array, itself used as the `error` value returned to callers. -/
abbrev GQErrors := List GraphQLError

/-- The `Error` method of the `errors` type: `return e[0].Message`.  It
indexes element 0 unconditionally, so on an empty slice it panics; the panic
is modelled by `none`. -/
def errorsErrorMethod : GQErrors → Option String
  | [] => none
  | e :: _ => some e.message

/-- `json.Unmarshal` of a JSON value into a Go `string` field: strings decode,
`null` leaves the zero value `""`, anything else is a type error. -/
def decodeStringField : Option Json → Except String String
  | none => .ok ""
  | some .null => .ok ""
  | some (.str s) => .ok s
  | some _ => .error "json: cannot unmarshal value into Go value of type string"

/-- `json.Unmarshal` of a JSON value into a Go `int` field: numbers decode,
`null` leaves the zero value `0`, anything else is a type error. -/
def decodeIntField : Option Json → Except String Int
  | none => .ok 0
  | some .null => .ok 0
  | some (.num n) => .ok n
  | some _ => .error "json: cannot unmarshal value into Go value of type int"

/-- `json.Unmarshal` into one `{Line, Column int}` location struct:
an object fills the fields (missing or null fields keep zero values),
`null` keeps the zero struct, anything else is a type error. -/
def decodeLocation : Json → Except String Location
  | .null => .ok { line := 0, column := 0 }
  | .obj fields => do
      let l ← decodeIntField (lookupCI fields "line")
      let c ← decodeIntField (lookupCI fields "column")
      .ok { line := l, column := c }
  | _ => .error "json: cannot unmarshal value into Go struct Location"

/-- `json.Unmarshal` into the `Locations` slice of a `GraphQLError`. -/
def decodeLocationList : List Json → Except String (List Location)
  | [] => .ok []
  | x :: rest => do
      let l ← decodeLocation x
      let ls ← decodeLocationList rest
      .ok (l :: ls)

/-- `json.Unmarshal` into one element of the `errors` slice type
(`{Message string; Locations []struct{Line, Column int}}`). -/
def decodeGraphQLError : Json → Except String GraphQLError
  | .null => .ok { message := "", locations := [] }
  | .obj fields => do
      let m ← decodeStringField (lookupCI fields "message")
      let ls ← match lookupCI fields "locations" with
        | none => Except.ok []
        | some .null => Except.ok []
        | some (.arr xs) => decodeLocationList xs
        | some _ =>
            Except.error "json: cannot unmarshal value into Go slice of locations"
      .ok { message := m, locations := ls }
  | _ => .error "json: cannot unmarshal value into Go struct of type errors element"

/-- `json.Unmarshal` into the elements of the `errors` slice. -/
def decodeErrorList : List Json → Except String GQErrors
  | [] => .ok []
  | x :: rest => do
      let e ← decodeGraphQLError x
      let es ← decodeErrorList rest
      .ok (e :: es)

/-- `json.Unmarshal(errStr, errs)` with `errs : *errors` (graphql.go line 80):
a JSON array decodes elementwise, `null` leaves the nil slice, anything else
is a type error. -/
def decodeErrors : Json → Except String GQErrors
  | .null => .ok []
  | .arr xs => decodeErrorList xs
  | _ => .error "json: cannot unmarshal value into Go value of type graphql.errors"

/-- `json.Unmarshal(result, resultMap)` with `resultMap` a pointer to a Go
map of type map[string]interface{} (graphql.go line 73), given the
already-parsed body value: an object
yields a populated map, `null` leaves the map nil (modelled `none`), any other
value is a type error. -/
def unmarshalIntoMap : Json → Except String (Option (List (String × Json)))
  | .null => .ok none
  | .obj fields => .ok (some fields)
  | _ => .error "json: cannot unmarshal value into Go value of type map"

/-- The re-marshal / re-unmarshal of the `data` value in `doForWbyDc`
(graphql.go lines 88-89): `json.Marshal` of the in-memory value followed by
`json.Unmarshal` into the fresh nil map `resultData`, whose error is
discarded.  Marshal-then-unmarshal of an already-generic value is the
identity on it, so the composite populates `resultData` with the object's
fields when the value is an object and leaves it nil otherwise (both for
`null`, which unmarshals as a no-op, and for the discarded type error). -/
def unmarshalValueIntoMapDiscardingError : Json → Option (List (String × Json))
  | .obj fields => some fields
  | _ => none

/-- Index into the decoded response map; indexing a nil Go map yields
"absent". -/
def mapLookup (m : Option (List (String × Json))) (key : String) : Option Json :=
  match m with
  | none => none
  | some fields => lookupExact fields key

/-- An HTTP response as the engine observes it after `ctxhttp.Post` succeeds:
the numeric status code, the status text (`resp.Status`, e.g.
"500 Internal Server Error"), and the fully-read body bytes. -/
structure HttpResponse where
  statusCode : Nat
  status : String
  body : String

/-- The outcome of `ctxhttp.Post`: either a transport-level failure
(connection, timeout, context cancellation) or a response. -/
inductive TransportOutcome where
  | failure (msg : String) : TransportOutcome
  | response (r : HttpResponse) : TransportOutcome

/-- The `operationType` enumeration of graphql.go (a `uint8` with constants
`queryOperation = 0` and `mutationOperation = 1`; `subscriptionOperation` is
commented out and unused). -/
inductive operationType where
  | queryOperation
  | mutationOperation
deriving DecidableEq, Repr

/-- The error values the engine can return, by provenance:
transport failures passed through, the non-200 status error built with
`fmt.Errorf`, JSON decode errors passed through, and the decoded `errors`
slice itself returned through the `error` interface. -/
inductive GoError where
  | transport (msg : String) : GoError
  | status (statusText : String) (body : String) : GoError
  | decode (msg : String) : GoError
  | gqlErrors (errs : GQErrors) : GoError

/-- Go's `%q` verb applied to the response body bytes inside
`fmt.Errorf("non-200 OK status code: %v body: %q", ...)`: the body quoted as
a Go string literal (same escapes as `escapeString` for the characters
modelled here). -/
def goQuote (s : String) : String :=
  "\"" ++ escapeString s ++ "\""

/-- `Error()` on each returned error value.  The `gqlErrors` case calls the
`errors.Error` method, which panics (`none`) on an empty slice. -/
def GoError.message : GoError → Option String
  | .transport msg => some msg
  | .status statusText body =>
      some ("non-200 OK status code: " ++ statusText ++ " body: " ++ goQuote body)
  | .decode msg => some msg
  | .gqlErrors errs => errorsErrorMethod errs

/-- The document selected by the `switch op` at the top of `doForWbyDc`
(graphql.go lines 49-54).  The builders `constructQueryNoQueryKeyword` and
`constructMutation` live in the internal package outside the given source, so
their outputs for this call are taken as parameters. -/
def doForWbyDcDocument (op : operationType)
    (docNoQueryKeyword docMutation : String) : String :=
  match op with
  | .queryOperation => docNoQueryKeyword
  | .mutationOperation => docMutation

/-- The body `doForWbyDc` POSTs (graphql.go lines 56-58): the raw document
text written into the buffer, not wrapped in any JSON envelope. -/
def doForWbyDcRequestBody (op : operationType)
    (docNoQueryKeyword docMutation : String) : String :=
  doForWbyDcDocument op docNoQueryKeyword docMutation

/-- The document selected by the `switch op` at the top of `do`
(graphql.go lines 98-103); the builders `constructQuery` and
`constructMutation` are external, so their outputs are parameters. -/
def doDocument (op : operationType) (docQuery docMutation : String) : String :=
  match op with
  | .queryOperation => docQuery
  | .mutationOperation => docMutation

/-- The anonymous request-envelope struct of `do` (graphql.go lines 104-110)
as `json.Marshal` serializes it: field `query` always present, field
`variables` tagged `omitempty`, hence omitted exactly when the map has
length zero (nil or empty). -/
def encodeRequestIn (query : String) (vars : List (String × Json)) : Json :=
  Json.obj (("query", Json.str query) ::
    (if vars.isEmpty then [] else [("variables", Json.obj vars)]))

/-- The body `do` POSTs (graphql.go lines 111-116): the request envelope
encoded by `json.NewEncoder(...).Encode`, which appends a newline. -/
def doRequestBody (op : operationType) (docQuery docMutation : String)
    (vars : List (String × Json)) : String :=
  Json.render (encodeRequestIn (doDocument op docQuery docMutation) vars) ++ "\n"

/-- The generic (untyped-result) flow `doForWbyDc` of graphql.go
(lines 47-93), parameterized over the external collaborators: the two
builder outputs, the transport (`post`, mapping the posted body to its
outcome) and the stdlib JSON grammar parse of the body bytes (`parse`).
Returns the pair (result map, error), modelling the Go return values
(`resultData`/`nil`, `error`). -/
def doForWbyDc (op : operationType) (docNoQueryKeyword docMutation : String)
    (post : String → TransportOutcome)
    (parse : String → Except String Json) :
    Option (List (String × Json)) × Option GoError :=
  match post (doForWbyDcRequestBody op docNoQueryKeyword docMutation) with
  | .failure msg => (none, some (.transport msg))
  | .response r =>
    if r.statusCode ≠ 200 then
      (none, some (.status r.status r.body))
    else
      match parse r.body with
      | .error msg => (none, some (.decode msg))
      | .ok bodyValue =>
        match unmarshalIntoMap bodyValue with
        | .error msg => (none, some (.decode msg))
        | .ok resultMap =>
          match mapLookup resultMap "errors" with
          | some errValue =>
            match decodeErrors errValue with
            | .error msg => (none, some (.decode msg))
            | .ok errs => (none, some (.gqlErrors errs))
          | none =>
            match mapLookup resultMap "data" with
            | some dataValue => (unmarshalValueIntoMapDiscardingError dataValue, none)
            | none => (none, none)

/-- The fixed response-envelope struct of `do` (graphql.go lines 125-129),
`{Data *json.RawMessage; Errors errors}`, decoded from the parsed body value:
an object fills the fields (a JSON `null` under `data` sets the pointer to
nil, i.e. absent; a missing `errors` key keeps the nil slice), a top-level
`null` keeps both zero values, any other value is a type error, as is a
failure of the `errors` slice decode. -/
def decodeTypedEnvelope (j : Json) : Except String (Option Json × GQErrors) :=
  match j with
  | .null => .ok (none, [])
  | .obj fields =>
    let dataField : Option Json :=
      match lookupCI fields "data" with
      | none => none
      | some .null => none
      | some v => some v
    (match lookupCI fields "errors" with
      | none => Except.ok (dataField, [])
      | some errValue =>
        match decodeErrors errValue with
        | .error msg => .error msg
        | .ok errs => .ok (dataField, errs))
  | _ => .error "json: cannot unmarshal value into Go struct of type out"

/-- The typed flow `do` of graphql.go (lines 96-146), parameterized over the
external collaborators: the two builder outputs, the transport, the stdlib
JSON grammar parse, and the structural decoder `jsonutil.UnmarshalGraphQL`
(`decodeInto`, which receives the raw `data` bytes and the shape `v`,
mutating the shape in place — modelled as returning the possibly partially
populated shape together with an optional error).  Returns the final shape
and the Go `error` return value. -/
def doTyped {σ : Type} (op : operationType) (docQuery docMutation : String)
    (vars : List (String × Json))
    (decodeInto : Json → σ → σ × Option String) (v : σ)
    (post : String → TransportOutcome)
    (parse : String → Except String Json) : σ × Option GoError :=
  match post (doRequestBody op docQuery docMutation vars) with
  | .failure msg => (v, some (.transport msg))
  | .response r =>
    if r.statusCode ≠ 200 then
      (v, some (.status r.status r.body))
    else
      match parse r.body with
      | .error msg => (v, some (.decode msg))
      | .ok bodyValue =>
        match decodeTypedEnvelope bodyValue with
        | .error msg => (v, some (.decode msg))
        | .ok (dataOpt, errs) =>
          match dataOpt with
          | some rawData =>
            match decodeInto rawData v with
            | (v2, some msg) => (v2, some (.decode msg))
            | (v2, none) =>
              if errs.length > 0 then (v2, some (.gqlErrors errs)) else (v2, none)
          | none =>
            if errs.length > 0 then (v, some (.gqlErrors errs)) else (v, none)

/-- The public `Client.Query` (graphql.go lines 36-38): it delegates to the
generic flow `doForWbyDc` with `queryOperation`. -/
def ClientQuery (docNoQueryKeyword docMutation : String)
    (post : String → TransportOutcome)
    (parse : String → Except String Json) :
    Option (List (String × Json)) × Option GoError :=
  doForWbyDc .queryOperation docNoQueryKeyword docMutation post parse

/-- The public `Client.Mutate` (graphql.go lines 43-45): it delegates to the
typed flow `do` with `mutationOperation`.  Only the `error` is returned by
the Go function; the shape is mutated in place, so the pair is kept here. -/
def ClientMutate {σ : Type} (docQuery docMutation : String)
    (vars : List (String × Json))
    (decodeInto : Json → σ → σ × Option String) (v : σ)
    (post : String → TransportOutcome)
    (parse : String → Except String Json) : σ × Option GoError :=
  doTyped .mutationOperation docQuery docMutation vars decodeInto v post parse

/-- Whether a JSON value is an object. -/
def Json.isObj : Json → Bool
  | .obj _ => true
  | _ => false

/-- Evaluation helper: the discarded-error re-unmarshal of a non-object
`data` value leaves the result map nil. -/
theorem unmarshalValueIntoMapDiscardingError_eq_none (j : Json)
    (h : j.isObj = false) : unmarshalValueIntoMapDiscardingError j = none := by
  cases j <;> simp_all [Json.isObj, unmarshalValueIntoMapDiscardingError]

/-- C1: on a 200 response whose envelope has a non-empty `errors` array and
no `data` key, the generic entry point (`Query`/`doForWbyDc`) returns a nil
map with the decoded error list as its error, the typed entry point
(`Mutate`/`do`) leaves the shape untouched and returns the decoded error
list as its error, and the error's `Error()` message is the message of the
first element of the array. -/
theorem C1_errors_no_data_both_entry_points {σ : Type}
    (dnk dm dq dmm : String) (vars : List (String × Json))
    (decodeInto : Json → σ → σ × Option String) (v : σ)
    (post : String → TransportOutcome) (parse : String → Except String Json)
    (r : HttpResponse) (fields : List (String × Json)) (errValue : Json)
    (e : GraphQLError) (rest : GQErrors)
    (hpostQ : post (doForWbyDcRequestBody .queryOperation dnk dm) = .response r)
    (hpostM : post (doRequestBody .mutationOperation dq dmm vars) = .response r)
    (hstatus : r.statusCode = 200)
    (hparse : parse r.body = .ok (Json.obj fields))
    (herrK : lookupExact fields "errors" = some errValue)
    (herrKCI : lookupCI fields "errors" = some errValue)
    (hnodataCI : lookupCI fields "data" = none)
    (hdec : decodeErrors errValue = .ok (e :: rest)) :
    ClientQuery dnk dm post parse = (none, some (.gqlErrors (e :: rest)))
    ∧ ClientMutate dq dmm vars decodeInto v post parse
        = (v, some (.gqlErrors (e :: rest)))
    ∧ (GoError.gqlErrors (e :: rest)).message = some e.message := by
  refine ⟨?_, ?_, rfl⟩
  · simp [ClientQuery, doForWbyDc, hpostQ, hstatus, hparse, unmarshalIntoMap,
      mapLookup, herrK, hdec]
  · simp [ClientMutate, doTyped, hpostM, hstatus, hparse, decodeTypedEnvelope,
      herrKCI, hnodataCI, hdec]

/-- Witness for C1 at the concrete envelope
`{"errors":[{"message":"boom"}]}` on a 200 response. -/
theorem C1_errors_no_data_both_entry_points_witness :
    ClientQuery "doc" "mdoc"
        (fun _ => .response ⟨200, "200 OK", "BODY"⟩)
        (fun _ => .ok (Json.obj
          [("errors", Json.arr [Json.obj [("message", Json.str "boom")]])]))
      = (none, some (.gqlErrors [⟨"boom", []⟩]))
    ∧ ClientMutate "qdoc" "mmdoc" [] (fun (_ : Json) (u : Unit) => (u, none)) ()
        (fun _ => .response ⟨200, "200 OK", "BODY"⟩)
        (fun _ => .ok (Json.obj
          [("errors", Json.arr [Json.obj [("message", Json.str "boom")]])]))
      = ((), some (.gqlErrors [⟨"boom", []⟩]))
    ∧ (GoError.gqlErrors [⟨"boom", []⟩]).message = some "boom" :=
  C1_errors_no_data_both_entry_points "doc" "mdoc" "qdoc" "mmdoc" []
    (fun _ u => (u, none)) ()
    (fun _ => .response ⟨200, "200 OK", "BODY"⟩)
    (fun _ => .ok (Json.obj
      [("errors", Json.arr [Json.obj [("message", Json.str "boom")]])]))
    ⟨200, "200 OK", "BODY"⟩
    [("errors", Json.arr [Json.obj [("message", Json.str "boom")]])]
    (Json.arr [Json.obj [("message", Json.str "boom")]])
    ⟨"boom", []⟩ []
    rfl rfl rfl rfl rfl (by rfl) (by rfl) rfl

/-- C2 counterexample: with a transport that reports the posted body back,
the public `Query` hands the raw document text `"doc"` to the transport —
not a serialized `{query, variables}` JSON envelope — while `Mutate` posts
the serialized envelope.  So the two public operations do not share the
typed envelope-serializing routine. -/
theorem C2_counterexample_query_posts_raw_document :
    ClientQuery "doc" "mut" (fun b => .failure b) (fun _ => .error "unused")
      = (none, some (.transport "doc"))
    ∧ ClientMutate "doc" "doc" [] (fun (_ : Json) (u : Unit) => (u, none)) ()
        (fun b => .failure b) (fun _ => .error "unused")
      = ((), some (.transport "\x7b\"query\":\"doc\"\x7d\n"))
    ∧ ("doc" : String) ≠ "\x7b\"query\":\"doc\"\x7d\n" := by
  refine ⟨by rfl, by rfl, by decide⟩

/-- C2 amended: `Query` delegates to the generic routine `doForWbyDc` with
kind `queryOperation`, which POSTs the raw keyword-omitting document text;
`Mutate` delegates to the typed routine `do` with kind `mutationOperation`,
which serializes the `{query, variables}` envelope as JSON and POSTs it;
each internal routine is parameterized by operation kind through its
leading `switch op`. -/
theorem C2_entry_point_delegation {σ : Type}
    (dnk dm dq dmm : String) (vars : List (String × Json))
    (decodeInto : Json → σ → σ × Option String) (v : σ)
    (post : String → TransportOutcome)
    (parse : String → Except String Json) :
    ClientQuery dnk dm post parse = doForWbyDc .queryOperation dnk dm post parse
    ∧ ClientMutate dq dmm vars decodeInto v post parse
        = doTyped .mutationOperation dq dmm vars decodeInto v post parse
    ∧ doForWbyDcRequestBody .queryOperation dnk dm = dnk
    ∧ doForWbyDcRequestBody .mutationOperation dnk dm = dm
    ∧ doRequestBody .mutationOperation dq dmm vars
        = Json.render (encodeRequestIn dmm vars) ++ "\n"
    ∧ doRequestBody .queryOperation dq dmm vars
        = Json.render (encodeRequestIn dq vars) ++ "\n" :=
  ⟨rfl, rfl, rfl, rfl, rfl, rfl⟩

/-- C3: on a 200 response whose envelope has both a `data` value and a
non-empty `errors` array, the generic entry point returns (nil, error)
without inspecting the data value (the result is `none` for every
`dataValue`), while the typed entry point first runs the structural decoder
on the data value — the returned shape is whatever the decoder produced —
and then returns the error list as the error. -/
theorem C3_data_and_errors_both_entry_points {σ : Type}
    (dnk dm dq dmm : String) (vars : List (String × Json))
    (decodeInto : Json → σ → σ × Option String) (v v2 : σ)
    (post : String → TransportOutcome) (parse : String → Except String Json)
    (r : HttpResponse) (fields : List (String × Json))
    (errValue dataValue dataRaw : Json)
    (e : GraphQLError) (rest : GQErrors)
    (hpostQ : post (doForWbyDcRequestBody .queryOperation dnk dm) = .response r)
    (hpostM : post (doRequestBody .mutationOperation dq dmm vars) = .response r)
    (hstatus : r.statusCode = 200)
    (hparse : parse r.body = .ok (Json.obj fields))
    (herrK : lookupExact fields "errors" = some errValue)
    (herrKCI : lookupCI fields "errors" = some errValue)
    (_hdataK : lookupExact fields "data" = some dataValue)
    (hdataKCI : lookupCI fields "data" = some dataRaw)
    (hnotnull : dataRaw ≠ Json.null)
    (hdec : decodeErrors errValue = .ok (e :: rest))
    (hdecInto : decodeInto dataRaw v = (v2, none)) :
    ClientQuery dnk dm post parse = (none, some (.gqlErrors (e :: rest)))
    ∧ ClientMutate dq dmm vars decodeInto v post parse
        = (v2, some (.gqlErrors (e :: rest))) := by
  refine ⟨?_, ?_⟩
  · simp [ClientQuery, doForWbyDc, hpostQ, hstatus, hparse, unmarshalIntoMap,
      mapLookup, herrK, hdec]
  · simp only [ClientMutate, doTyped, hpostM, hstatus, hparse,
      decodeTypedEnvelope, herrKCI, hdataKCI, hdec]
    cases dataRaw <;> simp_all [hdecInto]

/-- Witness for C3 at the concrete envelope
`{"data":{"x":1},"errors":[{"message":"oops"}]}` on a 200 response, with a
structural decoder that records success in a Boolean shape. -/
theorem C3_data_and_errors_both_entry_points_witness :
    ClientQuery "doc" "mdoc"
        (fun _ => .response ⟨200, "200 OK", "B"⟩)
        (fun _ => .ok (Json.obj
          [("data", Json.obj [("x", Json.num 1)]),
           ("errors", Json.arr [Json.obj [("message", Json.str "oops")]])]))
      = (none, some (.gqlErrors [⟨"oops", []⟩]))
    ∧ ClientMutate "qd" "md" []
        (fun (_ : Json) (_ : Bool) => (true, none)) false
        (fun _ => .response ⟨200, "200 OK", "B"⟩)
        (fun _ => .ok (Json.obj
          [("data", Json.obj [("x", Json.num 1)]),
           ("errors", Json.arr [Json.obj [("message", Json.str "oops")]])]))
      = (true, some (.gqlErrors [⟨"oops", []⟩])) :=
  C3_data_and_errors_both_entry_points "doc" "mdoc" "qd" "md" []
    (fun _ _ => (true, none)) false true
    (fun _ => .response ⟨200, "200 OK", "B"⟩)
    (fun _ => .ok (Json.obj
      [("data", Json.obj [("x", Json.num 1)]),
       ("errors", Json.arr [Json.obj [("message", Json.str "oops")]])]))
    ⟨200, "200 OK", "B"⟩
    [("data", Json.obj [("x", Json.num 1)]),
     ("errors", Json.arr [Json.obj [("message", Json.str "oops")]])]
    (Json.arr [Json.obj [("message", Json.str "oops")]])
    (Json.obj [("x", Json.num 1)]) (Json.obj [("x", Json.num 1)])
    ⟨"oops", []⟩ []
    rfl rfl rfl rfl (by rfl) (by rfl) (by rfl) (by rfl)
    (by simp) (by rfl) rfl

/-- C4: the request envelope marshaled by the typed flow `do` has a
`variables` member exactly when the variables map is non-empty (`omitempty`
on a map omits it at length zero, whether nil or empty), and the body `do`
POSTs is that envelope rendered as JSON (plus the encoder's newline). -/
theorem C4_variables_key_iff_nonempty (op : operationType)
    (dq dm : String) (vars : List (String × Json)) :
    ("variables" ∈ objKeys (encodeRequestIn (doDocument op dq dm) vars)
      ↔ vars ≠ [])
    ∧ doRequestBody op dq dm vars
        = Json.render (encodeRequestIn (doDocument op dq dm) vars) ++ "\n" := by
  refine ⟨?_, rfl⟩
  cases vars <;> simp [encodeRequestIn, objKeys]

/-- C5: on a response with a non-200 status, each entry point returns the
status error built from the status text and the raw body — for every
`parse`, so the body is never decoded as a data/errors envelope — and that
error's message carries the status text and the quoted raw body. -/
theorem C5_non_200_status_no_envelope_decode {σ : Type}
    (opG opT : operationType) (dnk dm dq dmm : String)
    (vars : List (String × Json))
    (decodeInto : Json → σ → σ × Option String) (v : σ)
    (post : String → TransportOutcome) (r : HttpResponse)
    (hpostQ : post (doForWbyDcRequestBody opG dnk dm) = .response r)
    (hpostM : post (doRequestBody opT dq dmm vars) = .response r)
    (hstatus : r.statusCode ≠ 200) :
    (∀ parse, doForWbyDc opG dnk dm post parse
        = (none, some (.status r.status r.body)))
    ∧ (∀ parse, doTyped opT dq dmm vars decodeInto v post parse
        = (v, some (.status r.status r.body)))
    ∧ (GoError.status r.status r.body).message
        = some ("non-200 OK status code: " ++ r.status ++ " body: "
            ++ goQuote r.body) := by
  refine ⟨fun parse => ?_, fun parse => ?_, rfl⟩
  · simp [doForWbyDc, hpostQ, hstatus]
  · simp [doTyped, hpostM, hstatus]

/-- Witness for C5 at a concrete 500 response with body "internal error". -/
theorem C5_non_200_status_no_envelope_decode_witness :
    (∀ parse, doForWbyDc .queryOperation "doc" "mdoc"
        (fun _ => .response ⟨500, "500 Internal Server Error", "internal error"⟩)
        parse
      = (none, some (.status "500 Internal Server Error" "internal error")))
    ∧ (∀ parse, doTyped .mutationOperation "qd" "md" []
        (fun (_ : Json) (u : Unit) => (u, none)) ()
        (fun _ => .response ⟨500, "500 Internal Server Error", "internal error"⟩)
        parse
      = ((), some (.status "500 Internal Server Error" "internal error")))
    ∧ (GoError.status "500 Internal Server Error" "internal error").message
        = some ("non-200 OK status code: 500 Internal Server Error body: "
            ++ "\"internal error\"") :=
  C5_non_200_status_no_envelope_decode .queryOperation .mutationOperation
    "doc" "mdoc" "qd" "md" [] (fun _ u => (u, none)) ()
    (fun _ => .response ⟨500, "500 Internal Server Error", "internal error"⟩)
    ⟨500, "500 Internal Server Error", "internal error"⟩
    rfl rfl (by decide)

/-- C6: on a 200 response whose envelope has a `data` key holding an object
and no `errors` key, the generic entry point returns the object's fields as
a non-nil map (the re-marshal/re-unmarshal normalization of an object value
reproduces the same object) with a nil error. -/
theorem C6_data_no_errors_generic_returns_data
    (dnk dm : String) (post : String → TransportOutcome)
    (parse : String → Except String Json)
    (r : HttpResponse) (fields dataFields : List (String × Json))
    (hpostQ : post (doForWbyDcRequestBody .queryOperation dnk dm) = .response r)
    (hstatus : r.statusCode = 200)
    (hparse : parse r.body = .ok (Json.obj fields))
    (hnoerr : lookupExact fields "errors" = none)
    (hdata : lookupExact fields "data" = some (Json.obj dataFields)) :
    ClientQuery dnk dm post parse = (some dataFields, none) := by
  simp [ClientQuery, doForWbyDc, hpostQ, hstatus, hparse, unmarshalIntoMap,
    mapLookup, hnoerr, hdata, unmarshalValueIntoMapDiscardingError]

/-- Witness for C6 at the concrete envelope
`{"data":{"user":{"id":"1"}}}` on a 200 response. -/
theorem C6_data_no_errors_generic_returns_data_witness :
    ClientQuery "doc" "mdoc"
        (fun _ => .response ⟨200, "200 OK", "B"⟩)
        (fun _ => .ok (Json.obj
          [("data", Json.obj [("user", Json.obj [("id", Json.str "1")])])]))
      = (some [("user", Json.obj [("id", Json.str "1")])], none) :=
  C6_data_no_errors_generic_returns_data "doc" "mdoc"
    (fun _ => .response ⟨200, "200 OK", "B"⟩)
    (fun _ => .ok (Json.obj
      [("data", Json.obj [("user", Json.obj [("id", Json.str "1")])])]))
    ⟨200, "200 OK", "B"⟩
    [("data", Json.obj [("user", Json.obj [("id", Json.str "1")])])]
    [("user", Json.obj [("id", Json.str "1")])]
    rfl rfl rfl (by rfl) (by rfl)

/-- C7: on a 200 response whose envelope has neither a `data` key nor an
`errors` key, the generic entry point returns a nil map and a nil error. -/
theorem C7_absent_data_absent_errors_nil_nil
    (dnk dm : String) (post : String → TransportOutcome)
    (parse : String → Except String Json)
    (r : HttpResponse) (fields : List (String × Json))
    (hpostQ : post (doForWbyDcRequestBody .queryOperation dnk dm) = .response r)
    (hstatus : r.statusCode = 200)
    (hparse : parse r.body = .ok (Json.obj fields))
    (hnoerr : lookupExact fields "errors" = none)
    (hnodata : lookupExact fields "data" = none) :
    ClientQuery dnk dm post parse = (none, none) := by
  simp [ClientQuery, doForWbyDc, hpostQ, hstatus, hparse, unmarshalIntoMap,
    mapLookup, hnoerr, hnodata]

/-- Witness for C7 at the concrete envelope `{"other":true}`. -/
theorem C7_absent_data_absent_errors_nil_nil_witness :
    ClientQuery "doc" "mdoc"
        (fun _ => .response ⟨200, "200 OK", "B"⟩)
        (fun _ => .ok (Json.obj [("other", Json.bool true)]))
      = (none, none) :=
  C7_absent_data_absent_errors_nil_nil "doc" "mdoc"
    (fun _ => .response ⟨200, "200 OK", "B"⟩)
    (fun _ => .ok (Json.obj [("other", Json.bool true)]))
    ⟨200, "200 OK", "B"⟩ [("other", Json.bool true)]
    rfl rfl rfl (by rfl) (by rfl)

/-- C8: in the generic entry point, when the `errors` key is present and the
re-marshaled `errors` value fails to unmarshal into the `errors` slice type,
that unmarshal error itself is returned with a nil result. -/
theorem C8_errors_unmarshal_failure_returned
    (dnk dm : String) (post : String → TransportOutcome)
    (parse : String → Except String Json)
    (r : HttpResponse) (fields : List (String × Json))
    (errValue : Json) (msg : String)
    (hpostQ : post (doForWbyDcRequestBody .queryOperation dnk dm) = .response r)
    (hstatus : r.statusCode = 200)
    (hparse : parse r.body = .ok (Json.obj fields))
    (herrK : lookupExact fields "errors" = some errValue)
    (hfail : decodeErrors errValue = .error msg) :
    ClientQuery dnk dm post parse = (none, some (.decode msg)) := by
  simp [ClientQuery, doForWbyDc, hpostQ, hstatus, hparse, unmarshalIntoMap,
    mapLookup, herrK, hfail]

/-- Witness for C8 at the concrete envelope `{"errors":5}`, whose `errors`
value is not an array and fails to unmarshal into the slice type. -/
theorem C8_errors_unmarshal_failure_returned_witness :
    ClientQuery "doc" "mdoc"
        (fun _ => .response ⟨200, "200 OK", "B"⟩)
        (fun _ => .ok (Json.obj [("errors", Json.num 5)]))
      = (none, some (.decode
          "json: cannot unmarshal value into Go value of type graphql.errors")) :=
  C8_errors_unmarshal_failure_returned "doc" "mdoc"
    (fun _ => .response ⟨200, "200 OK", "B"⟩)
    (fun _ => .ok (Json.obj [("errors", Json.num 5)]))
    ⟨200, "200 OK", "B"⟩ [("errors", Json.num 5)] (Json.num 5)
    "json: cannot unmarshal value into Go value of type graphql.errors"
    rfl rfl rfl (by rfl) (by rfl)

/-- C9: the `Error` method of the `errors` type reads element 0
unconditionally — it yields the first message on any non-empty slice and
panics (`none`) on the empty slice — and the generic entry point breaks that
precondition: whenever the `errors` key decodes to the empty slice it still
returns it as a non-nil error value, on which calling `Error()` panics. -/
theorem C9_empty_errors_list_error_method_panics
    (dnk dm : String) (post : String → TransportOutcome)
    (parse : String → Except String Json)
    (r : HttpResponse) (fields : List (String × Json)) (errValue : Json)
    (hpostQ : post (doForWbyDcRequestBody .queryOperation dnk dm) = .response r)
    (hstatus : r.statusCode = 200)
    (hparse : parse r.body = .ok (Json.obj fields))
    (herrK : lookupExact fields "errors" = some errValue)
    (hdec : decodeErrors errValue = .ok []) :
    ClientQuery dnk dm post parse = (none, some (.gqlErrors []))
    ∧ (GoError.gqlErrors []).message = none
    ∧ errorsErrorMethod [] = none
    ∧ (∀ (e : GraphQLError) (rest : GQErrors),
        errorsErrorMethod (e :: rest) = some e.message) := by
  refine ⟨?_, rfl, rfl, fun e rest => rfl⟩
  simp [ClientQuery, doForWbyDc, hpostQ, hstatus, hparse, unmarshalIntoMap,
    mapLookup, herrK, hdec]

/-- Witness for C9 at the concrete envelope `{"errors":[]}`. -/
theorem C9_empty_errors_list_error_method_panics_witness :
    ClientQuery "doc" "mdoc"
        (fun _ => .response ⟨200, "200 OK", "B"⟩)
        (fun _ => .ok (Json.obj [("errors", Json.arr [])]))
      = (none, some (.gqlErrors []))
    ∧ (GoError.gqlErrors []).message = none
    ∧ errorsErrorMethod [] = none
    ∧ (∀ (e : GraphQLError) (rest : GQErrors),
        errorsErrorMethod (e :: rest) = some e.message) :=
  C9_empty_errors_list_error_method_panics "doc" "mdoc"
    (fun _ => .response ⟨200, "200 OK", "B"⟩)
    (fun _ => .ok (Json.obj [("errors", Json.arr [])]))
    ⟨200, "200 OK", "B"⟩ [("errors", Json.arr [])] (Json.arr [])
    rfl rfl rfl (by rfl) (by rfl)

/-- C10: in the generic entry point, the error of re-unmarshaling the `data`
value into the untyped result map is discarded: on a 200 response whose
envelope has a `data` key holding a non-object value and no `errors` key,
the call returns a nil map and a nil error — the same outcome as when both
keys are absent (C7). -/
theorem C10_non_object_data_silently_nil
    (dnk dm : String) (post : String → TransportOutcome)
    (parse : String → Except String Json)
    (r : HttpResponse) (fields : List (String × Json)) (dataValue : Json)
    (hpostQ : post (doForWbyDcRequestBody .queryOperation dnk dm) = .response r)
    (hstatus : r.statusCode = 200)
    (hparse : parse r.body = .ok (Json.obj fields))
    (hnoerr : lookupExact fields "errors" = none)
    (hdata : lookupExact fields "data" = some dataValue)
    (hnotobj : dataValue.isObj = false) :
    ClientQuery dnk dm post parse = (none, none) := by
  simp [ClientQuery, doForWbyDc, hpostQ, hstatus, hparse, unmarshalIntoMap,
    mapLookup, hnoerr, hdata,
    unmarshalValueIntoMapDiscardingError_eq_none dataValue hnotobj]

/-- Witness for C10 at the concrete envelope `{"data":"a string"}`, whose
`data` value is not a JSON object. -/
theorem C10_non_object_data_silently_nil_witness :
    ClientQuery "doc" "mdoc"
        (fun _ => .response ⟨200, "200 OK", "B"⟩)
        (fun _ => .ok (Json.obj [("data", Json.str "a string")]))
      = (none, none) :=
  C10_non_object_data_silently_nil "doc" "mdoc"
    (fun _ => .response ⟨200, "200 OK", "B"⟩)
    (fun _ => .ok (Json.obj [("data", Json.str "a string")]))
    ⟨200, "200 OK", "B"⟩ [("data", Json.str "a string")]
    (Json.str "a string")
    rfl rfl rfl (by rfl) (by rfl) rfl
